import Mathlib

/-!
Verification of the calcint Pascal-subset interpreter (pasint.py together
with its ast.py node classes) against its natural-language specification.

The development is a shallow embedding: each Python class and method is
translated into a Lean definition that mirrors its control flow.  Python
runtime values are modelled by `PyObj`; Python exceptions by `PyErr`;
the mutable interpreter dictionary `GLOBAL_SCOPE` is threaded explicitly
as an association list.  Python floats are modelled as exact rationals:
every numeric value reached in the theorems below is exactly
representable in binary floating point, so no rounding divergence can
arise on the inputs considered.

Loops in the lexer run on an internal fuel of `text.length + 1`, which
is always sufficient because every iteration advances the cursor by one
position; recursive-descent parsing and tree-walking evaluation take an
explicit fuel parameter whose exhaustion is reported as `PyErr.outOfFuel`
(the analogue of Python's RecursionError for unboundedly deep input).
-/

namespace Calcint

/-- A Python runtime object as used by this program: `None`, an `int`,
a `float` (modelled as an exact rational), or a `str`. -/
inductive PyObj where
  | none
  | int (n : ℤ)
  | float (q : ℚ)
  | str (s : String)
deriving Repr, DecidableEq

/-- The Python exceptions this program can raise. -/
inductive PyErr where
  /-- the program's own `CalcError(msg)` -/
  | calcError (msg : String)
  /-- `raise NameError(name)` in `Interpreter.visit_Var` -/
  | nameError (name : PyObj)
  /-- a Python `NameError` from referencing an undefined bare name -/
  | pyNameError (ident : String)
  /-- `AttributeError` from `getattr` in `NodeVisitor.visit` when the
  visitor method for a node class does not exist -/
  | attributeError (method : String)
  /-- `ZeroDivisionError` (a subclass of Python's `ArithmeticError`) -/
  | zeroDivisionError
  /-- `TypeError` from applying an arithmetic operator to `None` etc. -/
  | typeError
  /-- `IndexError` from `self.text[self.pos]` on an empty string -/
  | indexError
  /-- artificial: the embedding's recursion fuel ran out (the analogue
  of Python's RecursionError; never reached with ample fuel on the
  inputs appearing in the theorems below) -/
  | outOfFuel
deriving Repr, DecidableEq

/-- The interpreter's `GLOBAL_SCOPE` dictionary, keyed by the values the
program actually uses as keys (identifier strings). -/
abbrev Scope := List (PyObj × PyObj)

/-- Python dict lookup. -/
def Scope.get? : Scope → PyObj → Option PyObj
  | [], _ => Option.none
  | (k', v') :: rest, k => if k' = k then some v' else Scope.get? rest k

/-- Python dict assignment: overwrite in place, else append (insertion
order preserved, as in CPython). -/
def Scope.set : Scope → PyObj → PyObj → Scope
  | [], k, v => [(k, v)]
  | (k', v') :: rest, k, v =>
      if k' = k then (k, v) :: rest else (k', v') :: Scope.set rest k v

/-- The `TOKEN` enumeration of pasint.py. -/
inductive TOKEN where
  | EOF
  | PROGRAM
  | VAR
  | BEGIN
  | END
  | DOT
  | COMMA
  | SEMI
  | COLON
  | EMPTY
  | ASSIGN
  | INTEGER
  | REAL
  | INTEGER_CONST
  | REAL_CONST
  | ID
  | LPAREN
  | RPAREN
  | MUL
  | FLOAT_DIV
  | INTEGER_DIV
  | PLUS
  | MINUS
deriving Repr, DecidableEq

/-- The `value` of each `TOKEN` enum member: `auto()` members get the
integers CPython's `auto` assigns (1..5 in declaration order among the
non-string members), the rest carry their declared string. -/
def TOKEN.val : TOKEN → PyObj
  | .EOF => .int 1
  | .PROGRAM => .str "PROGRAM"
  | .VAR => .str "VAR"
  | .BEGIN => .str "BEGIN"
  | .END => .str "END"
  | .DOT => .str "."
  | .COMMA => .str ","
  | .SEMI => .str ";"
  | .COLON => .str ":"
  | .EMPTY => .int 2
  | .ASSIGN => .str ":="
  | .INTEGER => .str "INTEGER"
  | .REAL => .str "REAL"
  | .INTEGER_CONST => .int 3
  | .REAL_CONST => .int 4
  | .ID => .int 5
  | .LPAREN => .str "("
  | .RPAREN => .str ")"
  | .MUL => .str "*"
  | .FLOAT_DIV => .str "/"
  | .INTEGER_DIV => .str "DIV"
  | .PLUS => .str "+"
  | .MINUS => .str "-"

/-- The `Token` class of ast.py: a kind plus a value. -/
structure Token where
  type : TOKEN
  value : PyObj
deriving Repr, DecidableEq

/-- The `Token.__init__` constructor: `value is None` makes the token
carry its kind's enum value. -/
def Token.make (type : TOKEN) (value : PyObj) : Token :=
  if value = .none then ⟨type, type.val⟩ else ⟨type, value⟩

/-- The `RESERVED_KEYWORDS` table (dict `.get` interface). -/
def RESERVED_KEYWORDS : String → Option Token
  | "PROGRAM" => some (Token.make .PROGRAM .none)
  | "VAR" => some (Token.make .VAR .none)
  | "BEGIN" => some (Token.make .BEGIN .none)
  | "END" => some (Token.make .END .none)
  | "INTEGER" => some (Token.make .INTEGER .none)
  | "REAL" => some (Token.make .REAL .none)
  | "DIV" => some (Token.make .INTEGER_DIV .none)
  | _ => Option.none

/-- The AST node classes of ast.py, one constructor per class, each
holding exactly the data its `__init__` stores. -/
inductive AST where
  /-- `Program(name, node)` -/
  | program (name : PyObj) (node : AST)
  /-- `Block(*nodes)`: declarations followed by the compound statement -/
  | block (nodes : List AST)
  /-- `VarDecl(var_node, type_node)` -/
  | varDecl (var type_node : AST)
  /-- `Type(token)` -/
  | typeNode (token : Token)
  /-- `Compound(*nodes)` -/
  | compound (nodes : List AST)
  /-- `Assign(token, var, value)` -/
  | assign (token : Token) (var value : AST)
  /-- `Var(token)` -/
  | var (token : Token)
  /-- `NoOp()` -/
  | noOp
  /-- `UnaryOp(token, child)` -/
  | unaryOp (token : Token) (child : AST)
  /-- `BinOp(token, left, right)` -/
  | binOp (token : Token) (left right : AST)
  /-- `Num(token)` -/
  | num (token : Token)
deriving Repr

/-- The `.value` attribute of an AST node: classes that call the base
`AST.__init__` store `token.value`; Program, Block, VarDecl, Compound
and NoOp set it to `None` explicitly. -/
def AST.value : AST → PyObj
  | .program .. => .none
  | .block .. => .none
  | .varDecl .. => .none
  | .typeNode t => t.value
  | .compound .. => .none
  | .assign t .. => t.value
  | .var t => t.value
  | .noOp => .none
  | .unaryOp t .. => t.value
  | .binOp t .. => t.value
  | .num t => t.value

/-- The `Lexer` state: source text, cursor, and current character
(`None` past the end). -/
structure Lexer where
  text : List Char
  pos : Nat
  char : Option Char
deriving Repr, DecidableEq

/-- The well-formedness invariant every lexer reachable from
`Lexer.make` satisfies: `char` caches the character at `pos`. -/
def Lexer.Wf (l : Lexer) : Prop := l.char = l.text[l.pos]?

/-- `Lexer.__init__`: unconditionally reads `text[0]`, raising
`IndexError` on an empty source string. -/
def Lexer.make (text : List Char) : Except PyErr Lexer :=
  match text[0]? with
  | Option.none => .error .indexError
  | some c => .ok ⟨text, 0, some c⟩

/-- `Lexer.advance`. -/
def Lexer.advance (l : Lexer) : Lexer :=
  let pos := l.pos + 1
  if pos ≥ l.text.length then { l with pos := pos, char := Option.none }
  else { l with pos := pos, char := l.text[pos]? }

/-- `Lexer.peek`. -/
def Lexer.peek (l : Lexer) : Option Char :=
  let peekPos := l.pos + 1
  if peekPos ≤ l.text.length - 1 then l.text[peekPos]? else Option.none

/-- The loop of `Lexer.skip_whitespace`, on fuel. -/
def Lexer.skipWsGo : Nat → Lexer → Lexer
  | 0, l => l
  | n + 1, l =>
      match l.char with
      | some c => if c.isWhitespace then Lexer.skipWsGo n l.advance else l
      | Option.none => l

/-- `Lexer.skip_whitespace`: the internal fuel `text.length + 1` always
suffices because each iteration advances the cursor. -/
def Lexer.skip_whitespace (l : Lexer) : Lexer :=
  Lexer.skipWsGo (l.text.length + 1) l

/-- The digit-collecting loops of `Lexer.number`, on fuel. -/
def Lexer.digitsGo : Nat → Lexer → List Char → List Char × Lexer
  | 0, l, acc => (acc, l)
  | n + 1, l, acc =>
      match l.char with
      | some c =>
          if c.isDigit then Lexer.digitsGo n l.advance (acc ++ [c])
          else (acc, l)
      | Option.none => (acc, l)

/-- Python `int` applied to a digit string (never empty on the reachable
paths, since `number` is entered only on a digit). -/
def natOfDigits (ds : List Char) : Nat :=
  ds.foldl (fun a c => 10 * a + (c.toNat - '0'.toNat)) 0

/-- Python `float` applied to a string of shape `digits ['.' digits]`,
modelled as an exact rational. -/
def floatOfChars (cs : List Char) : ℚ :=
  let intPart := cs.takeWhile (fun c => c ≠ '.')
  let fracPart := (cs.dropWhile (fun c => c ≠ '.')).drop 1
  (natOfDigits intPart : ℚ) + (natOfDigits fracPart : ℚ) / ((10 : ℚ) ^ fracPart.length)

/-- `Lexer.number`: scan a digit run; if the next character is a dot
(with no requirement of a digit after it), append it, scan further
digits and emit a `REAL_CONST`; otherwise emit an `INTEGER_CONST`. -/
def Lexer.number (l : Lexer) : Token × Lexer :=
  let (result, l1) := Lexer.digitsGo (l.text.length + 1) l []
  match l1.char with
  | some '.' =>
      let l2 := l1.advance
      let (result2, l3) := Lexer.digitsGo (l2.text.length + 1) l2 (result ++ ['.'])
      (Token.make .REAL_CONST (.float (floatOfChars result2)), l3)
  | _ => (Token.make .INTEGER_CONST (.int (natOfDigits result : ℤ)), l1)

/-- The alphanumeric-collecting loop of `Lexer._id`, on fuel. -/
def Lexer.alnumGo : Nat → Lexer → List Char → List Char × Lexer
  | 0, l, acc => (acc, l)
  | n + 1, l, acc =>
      match l.char with
      | some c =>
          if c.isAlphanum then Lexer.alnumGo n l.advance (acc ++ [c])
          else (acc, l)
      | Option.none => (acc, l)

/-- `Lexer._id`: scan a maximal alphanumeric run, then consult the
reserved-word table, defaulting to an `ID` token carrying the text. -/
def Lexer.ident (l : Lexer) : Token × Lexer :=
  let (chars, l1) := Lexer.alnumGo (l.text.length + 1) l []
  let identifier := String.mk chars
  ((RESERVED_KEYWORDS identifier).getD (Token.make .ID (.str identifier)), l1)

/-- The dispatch body of `Lexer.next` once whitespace is dealt with.
The branch order mirrors the source exactly. -/
def Lexer.dispatch (l : Lexer) (c : Char) : Except PyErr (Token × Lexer) :=
  if c.isAlpha then .ok l.ident
  else if c = ':' ∧ l.peek = some '=' then
    .ok (Token.make .ASSIGN .none, l.advance.advance)
  else if c = ':' then .ok (Token.make .COLON .none, l.advance)
  else if c = ';' then .ok (Token.make .SEMI .none, l.advance)
  else if c = '.' then .ok (Token.make .DOT .none, l.advance)
  else if c = ',' then .ok (Token.make .COMMA .none, l.advance)
  else if c.isDigit then .ok l.number
  else if c = '(' then .ok (Token.make .LPAREN (.str (String.mk [c])), l.advance)
  else if c = ')' then .ok (Token.make .RPAREN (.str (String.mk [c])), l.advance)
  else if c = '*' then .ok (Token.make .MUL (.str (String.mk [c])), l.advance)
  else if c = '/' then .ok (Token.make .FLOAT_DIV (.str (String.mk [c])), l.advance)
  else if c = '+' then .ok (Token.make .PLUS (.str (String.mk [c])), l.advance)
  else if c = '-' then .ok (Token.make .MINUS (.str (String.mk [c])), l.advance)
  else .error (.calcError ("invalid character " ++ String.mk [c]))

/-- The `while self.char is not None` loop of `Lexer.next`.  The loop
re-enters only through the whitespace `continue`, and after
`skip_whitespace` the current character is not whitespace, so two
iterations always suffice on well-formed states. -/
def Lexer.nextGo : Nat → Lexer → Except PyErr (Token × Lexer)
  | 0, l => .ok (Token.make .EOF .none, l)
  | n + 1, l =>
      match l.char with
      | Option.none => .ok (Token.make .EOF .none, l)
      | some c =>
          if c.isWhitespace then Lexer.nextGo n l.skip_whitespace
          else l.dispatch c

/-- `Lexer.next`. -/
def Lexer.next (l : Lexer) : Except PyErr (Token × Lexer) :=
  Lexer.nextGo 2 l

/-- The `Parser` state: its lexer and the one-token lookahead. -/
structure Parser where
  lexer : Lexer
  token : Token
deriving Repr, DecidableEq

/-- `Parser.__init__`: pull the first token. -/
def Parser.make (l : Lexer) : Except PyErr Parser := do
  let (tok, l') ← l.next
  .ok ⟨l', tok⟩

/-- `Parser.eat`: on a match, pull the next token from the lexer;
otherwise `Parser.error` raises `CalcError("invalid syntax")`. -/
def Parser.eat (p : Parser) (expected : TOKEN) : Except PyErr Parser :=
  if p.token.type = expected then do
    let (tok, l') ← p.lexer.next
    .ok ⟨l', tok⟩
  else .error (.calcError "invalid syntax")

/-- `Parser.variable`: build a `Var` from the current token, then
consume an `ID`. -/
def Parser.variable (p : Parser) : Except PyErr (AST × Parser) := do
  let node := AST.var p.token
  let p1 ← p.eat .ID
  .ok (node, p1)

/-- `Parser.empty`: produce a `NoOp` without consuming anything. -/
def Parser.emptyStmt (p : Parser) : Except PyErr (AST × Parser) :=
  .ok (.noOp, p)

/-- `Parser.type_spec`. -/
def Parser.type_spec (p : Parser) : Except PyErr (AST × Parser) := do
  let token := p.token
  let p1 ←
    if token.type = .INTEGER then p.eat .INTEGER
    else p.eat .REAL
  .ok (.typeNode token, p1)

mutual

/-- `Parser.program`.  The method builds the `Program` node but its
final line is `return node`, referencing the undefined name `node`
(the node was bound as `program_node`), which raises a Python
`NameError` — and `self.block()` already raises one before that. -/
def Parser.program : Nat → Parser → Except PyErr (AST × Parser)
  | 0, _ => .error .outOfFuel
  | fuel + 1, p => do
      let p1 ← p.eat .PROGRAM
      let (var_node, p2) ← Parser.variable p1
      let _name := var_node.value
      let p3 ← p2.eat .SEMI
      let (block_node, p4) ← Parser.block fuel p3
      let _program_node := AST.program _name block_node
      let _p5 ← p4.eat .DOT
      .error (.pyNameError "node")

/-- `Parser.block`.  The line `Block(*declaration_nodes,
compound_statement)` references the bare name `compound_statement`
(the parsed node was bound as `compound_statement_node`), which is
undefined in the method body, raising a Python `NameError` at
runtime after the declarations and the compound statement have been
parsed. -/
def Parser.block : Nat → Parser → Except PyErr (AST × Parser)
  | 0, _ => .error .outOfFuel
  | fuel + 1, p => do
      let (_declaration_nodes, p1) ← Parser.declarations fuel p
      let (_compound_statement_node, _p2) ← Parser.compound_statement fuel p1
      .error (.pyNameError "compound_statement")

/-- `Parser.declarations`. -/
def Parser.declarations : Nat → Parser → Except PyErr (List AST × Parser)
  | 0, _ => .error .outOfFuel
  | fuel + 1, p =>
      if p.token.type = .VAR then do
        let p1 ← p.eat .VAR
        Parser.declsLoop fuel [] p1
      else .ok ([], p)

/-- The `while self.token.type == TOKEN.ID` loop of
`Parser.declarations`. -/
def Parser.declsLoop : Nat → List AST → Parser → Except PyErr (List AST × Parser)
  | 0, _, _ => .error .outOfFuel
  | fuel + 1, decls, p =>
      if p.token.type = .ID then do
        let (var_decls, p1) ← Parser.variable_declaration fuel p
        let p2 ← p1.eat .SEMI
        Parser.declsLoop fuel (decls ++ var_decls) p2
      else .ok (decls, p)

/-- `Parser.variable_declaration`. -/
def Parser.variable_declaration : Nat → Parser → Except PyErr (List AST × Parser)
  | 0, _ => .error .outOfFuel
  | fuel + 1, p => do
      let p1 ← p.eat .ID
      let (var_nodes, p2) ← Parser.varDeclLoop fuel [AST.var p.token] p1
      let p3 ← p2.eat .COLON
      let (type_node, p4) ← p3.type_spec
      .ok (var_nodes.map (fun v => AST.varDecl v type_node), p4)

/-- The `while self.token.type == TOKEN.COMMA` loop of
`Parser.variable_declaration`. -/
def Parser.varDeclLoop : Nat → List AST → Parser → Except PyErr (List AST × Parser)
  | 0, _, _ => .error .outOfFuel
  | fuel + 1, var_nodes, p =>
      if p.token.type = .COMMA then do
        let p1 ← p.eat .COMMA
        let node := AST.var p1.token
        let p2 ← p1.eat .ID
        Parser.varDeclLoop fuel (var_nodes ++ [node]) p2
      else .ok (var_nodes, p)

/-- `Parser.compound_statement`. -/
def Parser.compound_statement : Nat → Parser → Except PyErr (AST × Parser)
  | 0, _ => .error .outOfFuel
  | fuel + 1, p => do
      let p1 ← p.eat .BEGIN
      let (nodes, p2) ← Parser.statement_list fuel p1
      let p3 ← p2.eat .END
      .ok (.compound nodes, p3)

/-- `Parser.statement_list`: one statement, then the semicolon loop,
then the explicit rejection of a trailing `ID`. -/
def Parser.statement_list : Nat → Parser → Except PyErr (List AST × Parser)
  | 0, _ => .error .outOfFuel
  | fuel + 1, p => do
      let (st, p1) ← Parser.statement fuel p
      Parser.stmtListLoop fuel [st] p1

/-- The `while self.token.type == TOKEN.SEMI` loop of
`Parser.statement_list`, followed by the trailing-`ID` check. -/
def Parser.stmtListLoop : Nat → List AST → Parser → Except PyErr (List AST × Parser)
  | 0, _, _ => .error .outOfFuel
  | fuel + 1, nodes, p =>
      if p.token.type = .SEMI then do
        let p1 ← p.eat .SEMI
        let (st, p2) ← Parser.statement fuel p1
        Parser.stmtListLoop fuel (nodes ++ [st]) p2
      else
        if p.token.type = .ID then .error (.calcError "invalid syntax")
        else .ok (nodes, p)

/-- `Parser.statement`. -/
def Parser.statement : Nat → Parser → Except PyErr (AST × Parser)
  | 0, _ => .error .outOfFuel
  | fuel + 1, p =>
      if p.token.type = .BEGIN then Parser.compound_statement fuel p
      else if p.token.type = .ID then Parser.assignment_statement fuel p
      else p.emptyStmt

/-- `Parser.assignment_statement`.  Note the source passes `self.token`
(the token *after* the expression) as the `Assign` node's token. -/
def Parser.assignment_statement : Nat → Parser → Except PyErr (AST × Parser)
  | 0, _ => .error .outOfFuel
  | fuel + 1, p => do
      let (left, p1) ← p.variable
      let p2 ← p1.eat .ASSIGN
      let (right, p3) ← Parser.expr fuel p2
      .ok (.assign p3.token left right, p3)

/-- `Parser.expr`. -/
def Parser.expr : Nat → Parser → Except PyErr (AST × Parser)
  | 0, _ => .error .outOfFuel
  | fuel + 1, p => do
      let (node, p1) ← Parser.term fuel p
      Parser.exprLoop fuel node p1

/-- The `while self.token.type in {PLUS, MINUS}` loop of `Parser.expr`:
fold the running node as the new left operand. -/
def Parser.exprLoop : Nat → AST → Parser → Except PyErr (AST × Parser)
  | 0, _, _ => .error .outOfFuel
  | fuel + 1, node, p =>
      match p.token.type with
      | .PLUS => do
          let token := p.token
          let p1 ← p.eat .PLUS
          let (rhs, p2) ← Parser.term fuel p1
          Parser.exprLoop fuel (.binOp token node rhs) p2
      | .MINUS => do
          let token := p.token
          let p1 ← p.eat .MINUS
          let (rhs, p2) ← Parser.term fuel p1
          Parser.exprLoop fuel (.binOp token node rhs) p2
      | _ => .ok (node, p)

/-- `Parser.term`. -/
def Parser.term : Nat → Parser → Except PyErr (AST × Parser)
  | 0, _ => .error .outOfFuel
  | fuel + 1, p => do
      let (node, p1) ← Parser.factor fuel p
      Parser.termLoop fuel node p1

/-- The `while self.token.type in {MUL, INTEGER_DIV, FLOAT_DIV}` loop
of `Parser.term`. -/
def Parser.termLoop : Nat → AST → Parser → Except PyErr (AST × Parser)
  | 0, _, _ => .error .outOfFuel
  | fuel + 1, node, p =>
      match p.token.type with
      | .MUL => do
          let token := p.token
          let p1 ← p.eat .MUL
          let (rhs, p2) ← Parser.factor fuel p1
          Parser.termLoop fuel (.binOp token node rhs) p2
      | .INTEGER_DIV => do
          let token := p.token
          let p1 ← p.eat .INTEGER_DIV
          let (rhs, p2) ← Parser.factor fuel p1
          Parser.termLoop fuel (.binOp token node rhs) p2
      | .FLOAT_DIV => do
          let token := p.token
          let p1 ← p.eat .FLOAT_DIV
          let (rhs, p2) ← Parser.factor fuel p1
          Parser.termLoop fuel (.binOp token node rhs) p2
      | _ => .ok (node, p)

/-- `Parser.factor`. -/
def Parser.factor : Nat → Parser → Except PyErr (AST × Parser)
  | 0, _ => .error .outOfFuel
  | fuel + 1, p =>
      let token := p.token
      if token.type = .PLUS then do
        let p1 ← p.eat .PLUS
        let (child, p2) ← Parser.factor fuel p1
        .ok (.unaryOp token child, p2)
      else if token.type = .MINUS then do
        let p1 ← p.eat .MINUS
        let (child, p2) ← Parser.factor fuel p1
        .ok (.unaryOp token child, p2)
      else if token.type = .INTEGER_CONST then do
        let p1 ← p.eat .INTEGER_CONST
        .ok (.num token, p1)
      else if token.type = .REAL_CONST then do
        let p1 ← p.eat .REAL_CONST
        .ok (.num token, p1)
      else if token.type = .LPAREN then do
        let p1 ← p.eat .LPAREN
        let (node, p2) ← Parser.expr fuel p1
        let p3 ← p2.eat .RPAREN
        .ok (node, p3)
      else p.variable

end

/-- `Parser.parse`: the root production, then require `EOF`. -/
def Parser.parse (fuel : Nat) (p : Parser) : Except PyErr (AST × Parser) := do
  let (node, p1) ← Parser.program fuel p
  if p1.token.type ≠ .EOF then .error (.calcError "invalid syntax")
  else .ok (node, p1)

/-- Python unary `-` on the values this program produces.  Negating
`None` (or a string) raises `TypeError`. -/
def pyNeg : PyObj → Except PyErr PyObj
  | .int n => .ok (.int (-n))
  | .float q => .ok (.float (-q))
  | _ => .error .typeError

/-- Python binary `+`: numeric addition with int→float promotion,
string concatenation, `TypeError` otherwise (in particular on `None`). -/
def pyAdd : PyObj → PyObj → Except PyErr PyObj
  | .int a, .int b => .ok (.int (a + b))
  | .int a, .float b => .ok (.float ((a : ℚ) + b))
  | .float a, .int b => .ok (.float (a + (b : ℚ)))
  | .float a, .float b => .ok (.float (a + b))
  | .str a, .str b => .ok (.str (a ++ b))
  | _, _ => .error .typeError

/-- Python binary `-`: numeric only. -/
def pySub : PyObj → PyObj → Except PyErr PyObj
  | .int a, .int b => .ok (.int (a - b))
  | .int a, .float b => .ok (.float ((a : ℚ) - b))
  | .float a, .int b => .ok (.float (a - (b : ℚ)))
  | .float a, .float b => .ok (.float (a - b))
  | _, _ => .error .typeError

/-- Python binary `*`: numeric multiplication with promotion, string
repetition for str·int, `TypeError` otherwise. -/
def pyMul : PyObj → PyObj → Except PyErr PyObj
  | .int a, .int b => .ok (.int (a * b))
  | .int a, .float b => .ok (.float ((a : ℚ) * b))
  | .float a, .int b => .ok (.float (a * (b : ℚ)))
  | .float a, .float b => .ok (.float (a * b))
  | .str a, .int n => .ok (.str (String.join (List.replicate n.toNat a)))
  | .int n, .str a => .ok (.str (String.join (List.replicate n.toNat a)))
  | _, _ => .error .typeError

/-- The numeric value of a `PyObj`, when it has one. -/
def PyObj.asRat : PyObj → Option ℚ
  | .int n => some (n : ℚ)
  | .float q => some q
  | _ => Option.none

/-- Python binary `/` (true division): raises `ZeroDivisionError` on a
zero divisor, otherwise yields a float (never an infinity). -/
def pyDiv (x y : PyObj) : Except PyErr PyObj :=
  match x.asRat, y.asRat with
  | some a, some b =>
      if b = 0 then .error .zeroDivisionError else .ok (.float (a / b))
  | _, _ => .error .typeError

mutual

/-- `NodeVisitor.visit` composed with the `Interpreter`'s visitor
methods.  Nodes without a `visit_<Class>` method on `Interpreter`
(`Program`, `Block`, `VarDecl`, `Type`) make `getattr` raise
`AttributeError`.  The `match` statements in `visit_UnaryOp` and
`visit_BinOp` have no case for the remaining operator kinds — notably
no `INTEGER_DIV` case in `visit_BinOp` — so those paths fall through
and the method returns Python `None`.  The fuel argument bounds the
recursion depth (Python's RecursionError analogue). -/
def visit : Nat → Scope → AST → Except PyErr (PyObj × Scope)
  | 0, _, _ => .error .outOfFuel
  | fuel + 1, s, node =>
      match node with
      | .program .. => .error (.attributeError "visit_Program")
      | .block .. => .error (.attributeError "visit_Block")
      | .varDecl .. => .error (.attributeError "visit_VarDecl")
      | .typeNode _ => .error (.attributeError "visit_Type")
      | .compound nodes => visitSeq fuel s nodes
      | .assign _ tgt e => do
          let (value, s1) ← visit fuel s e
          .ok (.none, s1.set tgt.value value)
      | .var t =>
          match s.get? t.value with
          | some v => .ok (v, s)
          | Option.none => .error (.nameError t.value)
      | .noOp => .ok (.none, s)
      | .unaryOp t child => do
          let (value, s1) ← visit fuel s child
          match t.type with
          | .PLUS => .ok (value, s1)
          | .MINUS => do
              let v ← pyNeg value
              .ok (v, s1)
          | _ => .ok (.none, s1)
      | .binOp t left right => do
          let (lv, s1) ← visit fuel s left
          let (rv, s2) ← visit fuel s1 right
          match t.type with
          | .PLUS => do
              let v ← pyAdd lv rv
              .ok (v, s2)
          | .MINUS => do
              let v ← pySub lv rv
              .ok (v, s2)
          | .MUL => do
              let v ← pyMul lv rv
              .ok (v, s2)
          | .FLOAT_DIV => do
              let v ← pyDiv lv rv
              .ok (v, s2)
          | _ => .ok (.none, s2)
      | .num t => .ok (t.value, s)

/-- The `for child in node.children` loop of `visit_Compound`; a Python
method body with no `return` yields `None`. -/
def visitSeq : Nat → Scope → List AST → Except PyErr (PyObj × Scope)
  | 0, _, _ => .error .outOfFuel
  | fuel + 1, s, [] => let _ := fuel; .ok (.none, s)
  | fuel + 1, s, n :: rest => do
      let (_, s1) ← visit fuel s n
      visitSeq fuel s1 rest

end

/-- `Interpreter.interpret`: parse, then walk the tree starting from an
empty `GLOBAL_SCOPE`. -/
def Interpreter.interpret (fuel : Nat) (p : Parser) : Except PyErr (PyObj × Scope) := do
  let (tree, _) ← Parser.parse fuel p
  visit fuel [] tree

/-- Driver glue mirroring `script`/`main`: build the lexer and parser
from a source text and run the full parse. -/
def runParse (text : List Char) (fuel : Nat) : Except PyErr (AST × Parser) := do
  let l ← Lexer.make text
  let p ← Parser.make l
  Parser.parse fuel p

/-- Driver glue for the specification's expression-level
`parse_and_eval` scenarios: lex, parse a single `expr`, and evaluate it
in an empty scope. -/
def runExpr (text : List Char) (fuel : Nat) : Except PyErr (PyObj × Scope) := do
  let l ← Lexer.make text
  let p ← Parser.make l
  let (ast, _) ← Parser.expr fuel p
  visit fuel [] ast

/-- Driver glue returning just the AST a single `expr` parse builds. -/
def runExprAst (text : List Char) (fuel : Nat) : Except PyErr AST := do
  let l ← Lexer.make text
  let p ← Parser.make l
  let (ast, _) ← Parser.expr fuel p
  .ok ast

/-- Decidable equality for `Except` results, used to evaluate concrete
runs of the embedded program. -/
instance {ε α : Type} [DecidableEq ε] [DecidableEq α] : DecidableEq (Except ε α) :=
  fun x y =>
    match x, y with
    | .ok a, .ok b => if h : a = b then .isTrue (by rw [h]) else .isFalse (by simp [h])
    | .error a, .error b => if h : a = b then .isTrue (by rw [h]) else .isFalse (by simp [h])
    | .ok _, .error _ => .isFalse (by simp)
    | .error _, .ok _ => .isFalse (by simp)

/-- The expression sublanguage of the AST: exactly the node shapes
`Parser.factor`, `Parser.term` and `Parser.expr` can build. -/
inductive IsExpr : AST → Prop where
  | var (t : Token) : IsExpr (.var t)
  | num (t : Token) : IsExpr (.num t)
  | unaryOp (t : Token) {e : AST} : IsExpr e → IsExpr (.unaryOp t e)
  | binOp (t : Token) {l r : AST} : IsExpr l → IsExpr r → IsExpr (.binOp t l r)

/-- C1: the claim says a `BinOp` with operator `IntDiv` on two integers
performs truncating integer division, with `7 DIV 2` yielding `3`.  The
code's `visit_BinOp` `match` has no `INTEGER_DIV` case, so the method
falls through and returns Python `None`: every integer `DIV` evaluates
to `None`, and the full lex–parse–evaluate pipeline on `7 DIV 2` yields
`None` rather than the integer `3`. -/
theorem intDiv_evaluates_to_none :
    (∀ (a b : ℤ) (s : Scope),
      visit 2 s (.binOp (Token.make .INTEGER_DIV .none)
        (.num (Token.make .INTEGER_CONST (.int a)))
        (.num (Token.make .INTEGER_CONST (.int b)))) = .ok (.none, s)) ∧
    runExpr "7 DIV 2".toList 100 = .ok (.none, []) :=
  ⟨fun _ _ _ => rfl, rfl⟩

/-- C2: the claim says interpreting any parsed `Program` can only end
normally or with `NameError`/`ArithmeticError`.  The `Interpreter` has
no `visit_Program` method, so `NodeVisitor.visit` fails on every
`Program` node with the very missing-dispatch `AttributeError` the
claim rules out, whatever the store and whatever the program body. -/
theorem visit_program_raises_attribute_error :
    ∀ (fuel : Nat) (name : PyObj) (node : AST) (s : Scope),
      visit (fuel + 1) s (.program name node) =
        .error (.attributeError "visit_Program") :=
  fun _ _ _ _ => rfl

set_option maxHeartbeats 4000000 in
/-- C3: the claim says grammar-conforming source parses to a `Program`
and violating source fails with a syntax error.  The second half holds
(`BEGIN x := 1 END` is rejected), but the first fails: `Parser.block`
evaluates the undefined bare name `compound_statement`, so even the
minimal conforming program raises a Python `NameError` instead of
returning a tree (and `Parser.program`'s final `return node` would
raise another one if `block` were fixed). -/
theorem parse_always_fails_on_conforming_input :
    runParse "PROGRAM t; BEGIN END.".toList 100 =
      .error (.pyNameError "compound_statement") ∧
    runParse "BEGIN x := 1 END".toList 100 = .error (.calcError "invalid syntax") :=
  ⟨rfl, rfl⟩

/-- C4: the claim says both `7 DIV 0` and `7 / 0` fail with an
arithmetic error and float division never produces an infinity.  Float
division by zero does raise `ZeroDivisionError` (a subclass of Python's
`ArithmeticError`), but `7 DIV 0` silently evaluates to `None` because
`visit_BinOp` has no `INTEGER_DIV` case at all — no error is raised. -/
theorem div_by_zero_behaviour :
    runExpr "7 DIV 0".toList 100 = .ok (.none, []) ∧
    runExpr "7 / 0".toList 100 = .error .zeroDivisionError :=
  ⟨rfl, rfl⟩

set_option maxHeartbeats 8000000 in
/-- C5: multiplicative operators bind tighter than additive ones and
binary operators associate to the left by folding the running node as
the new left operand: `2 + 3 * 4` parses as `2 + (3 * 4)` and evaluates
to `14`, and `10 - 3 - 2` parses as `(10 - 3) - 2` and evaluates to
`5`. -/
theorem precedence_and_associativity :
    runExprAst "2 + 3 * 4".toList 100 =
      .ok (.binOp ⟨.PLUS, .str "+"⟩
        (.num ⟨.INTEGER_CONST, .int 2⟩)
        (.binOp ⟨.MUL, .str "*"⟩ (.num ⟨.INTEGER_CONST, .int 3⟩)
          (.num ⟨.INTEGER_CONST, .int 4⟩))) ∧
    runExpr "2 + 3 * 4".toList 100 = .ok (.int 14, []) ∧
    runExprAst "10 - 3 - 2".toList 100 =
      .ok (.binOp ⟨.MINUS, .str "-"⟩
        (.binOp ⟨.MINUS, .str "-"⟩ (.num ⟨.INTEGER_CONST, .int 10⟩)
          (.num ⟨.INTEGER_CONST, .int 3⟩))
        (.num ⟨.INTEGER_CONST, .int 2⟩)) ∧
    runExpr "10 - 3 - 2".toList 100 = .ok (.int 5, []) :=
  ⟨rfl, by decide, rfl, by decide⟩

/-- C6: evaluating a `Var` node looks its name up in `GLOBAL_SCOPE`:
a missing name raises exactly `NameError` carrying that identifier,
and a present name returns the stored value (leaving the store as it
was). -/
theorem var_lookup_semantics :
    ∀ (fuel : Nat) (s : Scope) (t : Token),
      (s.get? t.value = Option.none →
        visit (fuel + 1) s (.var t) = .error (.nameError t.value)) ∧
      (∀ v, s.get? t.value = some v → visit (fuel + 1) s (.var t) = .ok (v, s)) := by
  intro fuel s t
  constructor
  · intro h
    simp [visit, h]
  · intro v h
    simp [visit, h]

/-- Witness for C6 at a concrete store: `y` is unassigned and fails
with `NameError("y")`; `x` is assigned and returns its value. -/
theorem var_lookup_semantics_witness :
    visit 1 [(.str "x", .int 5)] (.var ⟨.ID, .str "y"⟩) =
      .error (.nameError (.str "y")) ∧
    visit 1 [(.str "x", .int 5)] (.var ⟨.ID, .str "x"⟩) =
      .ok (.int 5, [(.str "x", .int 5)]) :=
  ⟨(var_lookup_semantics 0 _ _).1 (by decide),
   (var_lookup_semantics 0 _ _).2 (.int 5) (by decide)⟩

/-- C9: `Lexer.__init__` reads `text[0]` unconditionally, so
constructing a lexer on the empty source raises `IndexError` (no
`EndOfInput` stream is produced), while every non-empty source
constructs successfully — a non-empty-source precondition. -/
theorem lexer_make_empty_raises_index_error :
    Lexer.make [] = .error .indexError ∧
    ∀ (c : Char) (cs : List Char), Lexer.make (c :: cs) = .ok ⟨c :: cs, 0, some c⟩ :=
  ⟨rfl, fun c cs => by simp [Lexer.make]⟩

/-- Bind of a successful `Except` computation. -/
theorem ebind_ok {α β : Type} (a : α) (f : α → Except PyErr β) :
    (Except.ok a >>= f) = f a := rfl

/-- Bind of a failed `Except` computation. -/
theorem ebind_error {α β : Type} (e : PyErr) (f : α → Except PyErr β) :
    ((Except.error e : Except PyErr α) >>= f) = .error e := rfl

/-- `Lexer.advance` always moves to `pos + 1` and caches the character
there (or `None` past the end), so it preserves `Lexer.Wf`. -/
theorem advance_eq (l : Lexer) :
    l.advance = ⟨l.text, l.pos + 1, l.text[l.pos + 1]?⟩ := by
  simp only [Lexer.advance]
  split
  · next h => simp [List.getElem?_eq_none h]
  · rfl

/-- The digit loop consumes exactly a maximal digit run: starting on a
well-formed state whose remaining input is `ds ++ rest` with `ds` all
digits and `rest` not digit-initial, it appends `ds` to the accumulator
and stops right after the run. -/
theorem digitsGo_spec : ∀ (ds rest text : List Char) (pos : Nat) (acc : List Char)
    (fuel : Nat),
    text.drop pos = ds ++ rest →
    (∀ c ∈ ds, c.isDigit) →
    (∀ c, rest.head? = some c → ¬ c.isDigit) →
    ds.length < fuel →
    Lexer.digitsGo fuel ⟨text, pos, text[pos]?⟩ acc =
      (acc ++ ds, ⟨text, pos + ds.length, text[pos + ds.length]?⟩) := by
  intro ds
  induction ds with
  | nil =>
      intro rest text pos acc fuel hdrop _ hrest hfuel
      match fuel with
      | n + 1 =>
        have hchar : text[pos]? = rest.head? := by
          have h0 := List.getElem?_drop text pos 0
          rw [hdrop] at h0
          simp only [List.nil_append, Nat.add_zero] at h0
          rw [List.head?_eq_getElem?]
          exact h0.symm
        cases hr : rest.head? with
        | none => simp [Lexer.digitsGo, hchar, hr]
        | some c =>
            have hd := hrest c hr
            simp [Lexer.digitsGo, hchar, hr, hd]
  | cons d ds' ih =>
      intro rest text pos acc fuel hdrop hds hrest hfuel
      match fuel with
      | n + 1 =>
        have hchar : text[pos]? = some d := by
          have h0 : (text.drop pos)[0]? = some d := by
            rw [hdrop]; exact List.getElem?_cons_zero
          rw [List.getElem?_drop] at h0
          simpa using h0
        have hd : d.isDigit := hds d (by simp)
        have hdrop' : text.drop (pos + 1) = ds' ++ rest := by
          rw [← List.tail_drop, hdrop]
          rfl
        have step := ih rest text (pos + 1) (acc ++ [d]) n hdrop'
          (fun c hc => hds c (by simp [hc])) hrest (by simpa using hfuel)
        simp only [Lexer.digitsGo, hchar, hd, if_true]
        rw [advance_eq]
        simp only at step
        rw [step]
        have harith : pos + 1 + ds'.length = pos + (ds'.length + 1) := by omega
        simp [List.append_assoc, harith]

/-- C7, counterexample: the claim says a digit run followed by a dot
with no digit after it is not a float literal.  Lexing the source text
consisting of `1.` emits a `REAL_CONST` token (value `1.0`) — not an
`INTEGER_CONST` — and swallows the dot (the final cursor is at position
2), contradicting the claim at this input. -/
theorem digit_dot_lexes_as_real_const :
    ((Lexer.make "1.".toList).bind Lexer.next).map (fun r => r.1.type) =
      .ok .REAL_CONST ∧
    ((Lexer.make "1.".toList).bind Lexer.next).map (fun r => r.2.pos) = .ok 2 ∧
    TOKEN.REAL_CONST ≠ TOKEN.INTEGER_CONST :=
  ⟨by decide, by decide, by decide⟩

/-- C7, amended: `Lexer.number` scans the maximal digit run and emits a
`REAL_CONST` exactly when the character immediately after the run is a
dot — whether or not a digit follows it — and an `INTEGER_CONST`
otherwise. -/
theorem number_emits_real_iff_dot (text ds rest : List Char) (pos : Nat)
    (h1 : text.drop pos = ds ++ rest)
    (_h2 : ds ≠ [])
    (h3 : ∀ c ∈ ds, c.isDigit)
    (h4 : ∀ c, rest.head? = some c → ¬ c.isDigit) :
    (Lexer.number ⟨text, pos, text[pos]?⟩).1.type =
      if rest.head? = some '.' then TOKEN.REAL_CONST else TOKEN.INTEGER_CONST := by
  have hlen : ds.length + rest.length ≤ text.length := by
    have := congrArg List.length h1
    simp at this
    omega
  have hfuel : ds.length < text.length + 1 := by omega
  unfold Lexer.number
  rw [digitsGo_spec ds rest text pos [] (text.length + 1) h1 h3 h4 hfuel]
  have hchar : text[pos + ds.length]? = rest.head? := by
    rw [List.head?_eq_getElem?, ← List.getElem?_drop, h1,
      List.getElem?_append_right (Nat.le_refl ds.length)]
    simp
  simp only [hchar]
  split
  · next heq => simp [heq, Token.make]
  · next hne =>
      simp only [Token.make]
      rw [if_neg hne]
      split <;> rfl

/-- Witness for the amended C7 at the source text `1.`: the digit run
is `1`, the rest is `.`, and the emitted token kind is `REAL_CONST`. -/
theorem number_emits_real_iff_dot_witness :
    (Lexer.number ⟨['1', '.'], 0, (['1', '.'] : List Char)[0]?⟩).1.type =
      if (['.'] : List Char).head? = some '.' then TOKEN.REAL_CONST
      else TOKEN.INTEGER_CONST :=
  number_emits_real_iff_dot ['1', '.'] ['1'] ['.'] 0 rfl (by decide)
    (by intro c hc; simp at hc; subst hc; decide)
    (by intro c hc; simp at hc; subst hc; decide)

/-- C8, counterexample: the claim says the lexical error carries both
the offending character and its byte offset.  The raised error is
`CalcError("invalid character @")` whether the bad character sits at
offset 0 or at offset 1 — two runs differing only in the offset produce
identical error values, so the error cannot carry the offset. -/
theorem lexical_error_same_at_two_offsets :
    Lexer.next ⟨['@'], 0, some '@'⟩ = .error (.calcError "invalid character @") ∧
    Lexer.next ⟨[' ', '@'], 1, some '@'⟩ =
      .error (.calcError "invalid character @") :=
  ⟨by decide, by decide⟩

/-- C8, amended: any current character matching no token rule makes
`Lexer.next` fail with `CalcError` whose message carries the offending
character — and nothing else: the error value does not depend on the
cursor position. -/
theorem lexical_error_carries_char_only (l : Lexer) (c : Char)
    (hc : l.char = some c)
    (hws : ¬ c.isWhitespace) (hal : ¬ c.isAlpha) (hdig : ¬ c.isDigit)
    (hpunct : c ∉ ([':', ';', '.', ',', '(', ')', '*', '/', '+', '-'] : List Char)) :
    l.next = .error (.calcError ("invalid character " ++ String.mk [c])) := by
  simp only [List.mem_cons, List.not_mem_nil, or_false, not_or] at hpunct
  obtain ⟨h1, h2, h3, h4, h5, h6, h7, h8, h9, h10⟩ := hpunct
  unfold Lexer.next Lexer.nextGo
  rw [hc]
  simp [Lexer.dispatch, hws, hal, hdig, h1, h2, h3, h4, h5, h6, h7, h8, h9, h10]

/-- Witness for the amended C8: the character `@` at offset 1. -/
theorem lexical_error_carries_char_only_witness :
    Lexer.next ⟨[' ', '@'], 1, some '@'⟩ =
      .error (.calcError ("invalid character " ++ String.mk ['@'])) :=
  lexical_error_carries_char_only ⟨[' ', '@'], 1, some '@'⟩ '@' rfl (by decide)
    (by decide) (by decide) (by decide)

/-- The binary-operator continuations in `visit` end by pairing the
operator's result with the already-threaded store, so a successful
outcome carries exactly that store. -/
theorem tail_frame {x : Except PyErr PyObj} {s2 : Scope} {v : PyObj} {s' : Scope}
    (h : (x >>= fun w => (.ok (w, s2) : Except PyErr (PyObj × Scope))) = .ok (v, s')) :
    s' = s2 := by
  cases x with
  | error e => rw [ebind_error] at h; simp at h
  | ok w =>
      rw [ebind_ok] at h
      simp only [Except.ok.injEq, Prod.mk.injEq] at h
      exact h.2.symm

/-- Evaluating any expression-shaped node that succeeds leaves the
store exactly as it was (proved by induction over the expression
shape, for every fuel). -/
theorem eval_frame_aux : ∀ {e : AST}, IsExpr e →
    ∀ (fuel : Nat) (s : Scope) (v : PyObj) (s' : Scope),
      visit fuel s e = .ok (v, s') → s' = s := by
  intro e he
  induction he with
  | var t =>
      intro fuel s v s' h
      match fuel with
      | 0 => simp [visit] at h
      | n + 1 =>
        simp only [visit] at h
        cases hg : Scope.get? s t.value with
        | none => rw [hg] at h; simp at h
        | some w =>
            rw [hg] at h
            simp only [Except.ok.injEq, Prod.mk.injEq] at h
            exact h.2.symm
  | num t =>
      intro fuel s v s' h
      match fuel with
      | 0 => simp [visit] at h
      | n + 1 =>
        simp only [visit] at h
        simp only [Except.ok.injEq, Prod.mk.injEq] at h
        exact h.2.symm
  | @unaryOp t e he ih =>
      intro fuel s v s' h
      match fuel with
      | 0 => simp [visit] at h
      | n + 1 =>
        simp only [visit] at h
        cases hv : visit n s e with
        | error err => rw [hv, ebind_error] at h; simp at h
        | ok p =>
          obtain ⟨w, s1⟩ := p
          have hs1 : s1 = s := ih n s w s1 hv
          rw [hv, ebind_ok] at h
          obtain ⟨ty, tval⟩ := t
          have hfin : s' = s1 := by
            cases ty <;>
              first
                | (simp only [Except.ok.injEq, Prod.mk.injEq] at h; exact h.2.symm)
                | exact tail_frame h
          rw [hfin, hs1]
  | @binOp t l r hl hr ihl ihr =>
      intro fuel s v s' h
      match fuel with
      | 0 => simp [visit] at h
      | n + 1 =>
        simp only [visit] at h
        cases hv1 : visit n s l with
        | error err => rw [hv1, ebind_error] at h; simp at h
        | ok p =>
          obtain ⟨lv, s1⟩ := p
          have hs1 : s1 = s := ihl n s lv s1 hv1
          rw [hv1, ebind_ok] at h
          cases hv2 : visit n s1 r with
          | error err => rw [hv2, ebind_error] at h; simp at h
          | ok q =>
            obtain ⟨rv, s2⟩ := q
            have hs2 : s2 = s1 := ihr n s1 rv s2 hv2
            rw [hv2, ebind_ok] at h
            obtain ⟨ty, tval⟩ := t
            have hfin : s' = s2 := by
              cases ty <;>
                first
                  | (simp only [Except.ok.injEq, Prod.mk.injEq] at h; exact h.2.symm)
                  | exact tail_frame h
            rw [hfin, hs2, hs1]

/-- C10: evaluation of expression nodes (`Var`, `BinOp`, `UnaryOp`,
`Num`) and of `NoOp` leaves `GLOBAL_SCOPE` unchanged; only `Assign`
mutates it, storing the value of its right-hand side under the target's
name. -/
theorem expr_eval_preserves_scope :
    (∀ {e : AST}, IsExpr e → ∀ (fuel : Nat) (s : Scope) (v : PyObj) (s' : Scope),
        visit fuel s e = .ok (v, s') → s' = s) ∧
    (∀ (fuel : Nat) (s : Scope), visit (fuel + 1) s .noOp = .ok (.none, s)) ∧
    (∀ (fuel : Nat) (s : Scope) (tok : Token) (tgt e : AST) (v : PyObj) (s1 : Scope),
        IsExpr e → visit fuel s e = .ok (v, s1) →
        visit (fuel + 1) s (.assign tok tgt e) =
          .ok (.none, s.set tgt.value v)) := by
  refine ⟨fun he fuel s v s' h => eval_frame_aux he fuel s v s' h,
    fun fuel s => rfl, ?_⟩
  intro fuel s tok tgt e v s1 he h
  have hs : s1 = s := eval_frame_aux he fuel s v s1 h
  simp only [visit]
  rw [h, ebind_ok, hs]

/-- Witness for C10: evaluating the literal `9` in a one-entry store
keeps the store; `NoOp` keeps it too; assigning `x := 7` in the empty
store yields exactly the binding for `x`. -/
theorem expr_eval_preserves_scope_witness :
    ([(.str "y", .int 9)] : Scope) = [(.str "y", .int 9)] ∧
    visit 1 [(.str "y", .int 9)] .noOp = .ok (.none, [(.str "y", .int 9)]) ∧
    visit 2 [] (.assign ⟨.SEMI, .str ";"⟩ (.var ⟨.ID, .str "x"⟩)
        (.num ⟨.INTEGER_CONST, .int 7⟩)) =
      .ok (.none, [(.str "x", .int 7)]) :=
  ⟨expr_eval_preserves_scope.1 (IsExpr.num ⟨.INTEGER_CONST, .int 9⟩) 1
      [(.str "y", .int 9)] (.int 9) [(.str "y", .int 9)] rfl,
   expr_eval_preserves_scope.2.1 0 [(.str "y", .int 9)],
   expr_eval_preserves_scope.2.2 1 [] ⟨.SEMI, .str ";"⟩ (.var ⟨.ID, .str "x"⟩)
      (.num ⟨.INTEGER_CONST, .int 7⟩) (.int 7) []
      (IsExpr.num ⟨.INTEGER_CONST, .int 7⟩) rfl⟩

end Calcint
